import Mathlib

/-!
Verification of the decision-fusion workflow of the Sotrian fraud-detection
repository. The definitions below are shallow embeddings of the Python
sources:

* `Models/langgraph_fraud_detector.py` — the LangGraph pipeline
  (`validate_input`, `classify_fraud_type`, `run_ml_model`, `llm_analysis`,
  `generate_final_result`, `detect_fraud_stream`);
* `Models/fraud_advisor.py` — the advisor workflow (`InputValidator.validate`,
  the invalid-input templates, the graph routing, `get_advice_stream`);
* `Models/QR-Spam/qr_detector.py` — the risk-tier mapping of
  `detect_fraud_from_base64`.

Floating-point confidences are embedded as exact rationals; Python dicts with
optional keys become structures with `Option` fields; the external reasoning
service (`self.llm.invoke`) is a parameter of each node that calls it, with an
explicit constructor for the call raising an exception, so that control flow
around `try`/`except` blocks is modelled faithfully.
-/

namespace Sotrian

/-! ## Generic character-list utilities shared by the embeddings -/

/-- Python substring membership `needle in hay` over character lists. -/
def containsSub (needle : List Char) : List Char → Bool
  | [] => needle.isEmpty
  | c :: rest => needle.isPrefixOf (c :: rest) || containsSub needle rest

/-- Python `str.strip()`: drop leading and trailing whitespace. -/
def stripChars (l : List Char) : List Char :=
  ((l.dropWhile Char.isWhitespace).reverse.dropWhile Char.isWhitespace).reverse

/-! ## ML-model step (`FraudDetectionGraph.run_ml_model`, lines 416–448)

The per-domain `_predict_*` helpers call an external scikit-learn classifier.
Their observable outcome is the pair of class probabilities and the predicted
label, so the classifier is a parameter `(label, probFraud, probLegit)`;
`Except.error` models the helper raising during inference. `registered`
abstracts the dispatch `fraud_type == d ∧ d ∈ self.model_loader.models`. -/

/-- Embedding of the `ml_prediction` dict: the fields that the downstream
nodes (`llm_analysis`, `generate_final_result`) read. -/
structure MlResult where
  model_available : Bool
  prediction : Option Int
  confidence : ℚ
  method : String
  deriving DecidableEq, Repr

/-- Result dict built by `_predict_credit_card` / `_predict_spam` /
`_predict_url` on a successful classifier call: the predicted label and
`confidence = probability[1] if prediction == 1 else probability[0]`. -/
def predict_success (label : Int) (probFraud probLegit : ℚ) : MlResult :=
  { model_available := true
    prediction := some label
    confidence := if label == 1 then probFraud else probLegit
    method := "ML_MODEL" }

/-- Embedding of `run_ml_model`: dispatch to a registered classifier, keep
the initial `{'model_available': False, 'confidence': 0.0, 'method': 'NONE'}`
dict on the no-model path (overwriting `method` with `'LLM_ONLY'`), and on an
exception inside the dispatch keep it with `method = 'ERROR_FALLBACK_TO_LLM'`
(the `try`/`except` at lines 428–443 never lets the failure escape). -/
def run_ml_model (registered : Bool) (outcome : Except String (Int × ℚ × ℚ)) :
    MlResult :=
  if registered then
    match outcome with
    | Except.ok (label, pF, pL) => predict_success label pF pL
    | Except.error _ =>
        { model_available := false, prediction := none,
          confidence := 0, method := "ERROR_FALLBACK_TO_LLM" }
  else
    { model_available := false, prediction := none,
      confidence := 0, method := "LLM_ONLY" }

/-! ## Reasoning step (`FraudDetectionGraph.llm_analysis`, lines 537–584) -/

/-- Embedding of the `llm_analysis` dict produced by the reasoning step: the
keys that `generate_final_result` reads, each optional because the dict is
parsed from arbitrary JSON (`llm_analysis.get(...)` with defaults). -/
structure LlmAnalysis where
  is_fraud : Option Bool
  confidence : Option ℚ
  deriving DecidableEq, Repr

/-- Keywords scanned by the unparseable-response fallback of `llm_analysis`
(line 567). -/
def fraud_keywords : List (List Char) :=
  [String.toList "fraud", String.toList "fraudulent", String.toList "suspicious",
   String.toList "malicious", String.toList "spam"]

/-- Whether the lowercased response text contains a fraud-indicative keyword
(`any(word in content_lower for word in [...])`). -/
def keyword_hit (content : List Char) : Bool :=
  fraud_keywords.any (fun w => containsSub w (content.map Char.toLower))

/-- Fallback analysis dict built when the reasoning response is not valid
JSON: `is_fraud` from the keyword scan, `confidence = 0.8 if is_fraud
else 0.6` (lines 564–574). -/
def keyword_fallback (content : List Char) : LlmAnalysis :=
  { is_fraud := some (keyword_hit content)
    confidence := some (if keyword_hit content then 8/10 else 6/10) }

/-- Gating condition `use_llm` of `llm_analysis` (lines 544–548): consult the
reasoning service iff the model is unavailable, or its method tag is one of
`NONE`/`LLM_ONLY`/`ERROR_FALLBACK_TO_LLM`, or its confidence is below 0.7. -/
def use_llm (ml : MlResult) : Bool :=
  !ml.model_available ||
    (ml.method == "NONE" || ml.method == "LLM_ONLY" ||
      ml.method == "ERROR_FALLBACK_TO_LLM") ||
    decide (ml.confidence < 7/10)

/-- Outcome of one `self.llm.invoke` call in `llm_analysis`, as seen by the
node: the call raises (`failure`), returns text that `json.loads` rejects
(`unparseable`), or returns text parsing to a JSON object (`parsed`). -/
inductive ServiceResponse where
  | failure (e : String)
  | unparseable (content : List Char)
  | parsed (j : LlmAnalysis)
  deriving DecidableEq, Repr

/-- Analysis dict stored when the model confidence was high enough:
`{'used': False, 'reason': ...}` — it has no `is_fraud` key. -/
def llm_not_used : LlmAnalysis := { is_fraud := none, confidence := none }

/-- Embedding of the `llm_analysis` node. The `try` at lines 555–563 wraps
only the parsing of the response; the `self.llm.invoke` call at line 553 is
outside it, so a raising call propagates (`Except.error`). The second
component counts reasoning-service invocations made by the node. -/
def llm_analysis_node (ml : MlResult) (svc : ServiceResponse) :
    Except String (LlmAnalysis × Nat) :=
  if use_llm ml then
    match svc with
    | ServiceResponse.failure e => Except.error e
    | ServiceResponse.unparseable content => Except.ok (keyword_fallback content, 1)
    | ServiceResponse.parsed j => Except.ok (j, 1)
  else
    Except.ok (llm_not_used, 0)

/-! ## Decision fusion (`FraudDetectionGraph.generate_final_result`, 653–806) -/

/-- Risk-tier mapping of `generate_final_result` (lines 716–731), keyed on the
fused `(is_fraud, confidence)` pair. -/
def risk_level_of (is_fraud : Bool) (confidence : ℚ) : String :=
  if is_fraud then
    if confidence ≥ 9/10 then "CRITICAL"
    else if confidence ≥ 3/4 then "HIGH"
    else if confidence ≥ 3/5 then "MEDIUM"
    else "LOW"
  else "LOW"

/-- Risk-tier mapping of `QRFraudDetector.detect_fraud_from_base64`
(`qr_detector.py`, lines 160–171). -/
def qr_risk_level (is_fraud : Bool) (confidence : ℚ) : String :=
  if is_fraud then
    if confidence ≥ 9/10 then "CRITICAL"
    else if confidence ≥ 3/4 then "HIGH"
    else if confidence ≥ 3/5 then "MEDIUM"
    else "LOW"
  else "LOW"

/-- Decision fields of the final result dict: verdict, confidence, risk tier
and method tag (the free-text `reasoning`/`recommendation` strings are
presentation only and carry no decision content). -/
structure Verdict where
  is_fraud : Bool
  confidence : ℚ
  risk_level : String
  detection_method : String
  deriving DecidableEq, Repr

/-- Embedding of the fusion policy of `generate_final_result` (lines 669–731):
branch 1 trusts a high-confidence model, branch 2 uses the reasoning analysis
whenever its dict has an `is_fraud` key, branch 3 is the hybrid rule for an
available model combined with an analysis dict lacking `is_fraud` (defaults
`llm_analysis.get('is_fraud', ml_fraud)` and `.get('confidence', 0.5)`), and
branch 4 is the graceful fallback. The risk tier is then derived uniformly
from the fused pair. -/
def generate_final_result (ml : MlResult) (llm : LlmAnalysis) : Verdict :=
  if ml.model_available && decide (ml.confidence ≥ 7/10) then
    let isf := ml.prediction == some 1
    { is_fraud := isf, confidence := ml.confidence,
      risk_level := risk_level_of isf ml.confidence, detection_method := "ML_MODEL" }
  else
    match llm.is_fraud with
    | some b =>
        let conf := llm.confidence.getD (8/10)
        { is_fraud := b, confidence := conf,
          risk_level := risk_level_of b conf, detection_method := "LLM_REASONING" }
    | none =>
        if ml.model_available then
          let ml_fraud := ml.prediction == some 1
          let llm_fraud := ml_fraud
          let llm_conf := llm.confidence.getD (1/2)
          let isf := ml_fraud || llm_fraud
          let conf := if isf then max ml.confidence llm_conf
                      else min ml.confidence llm_conf
          { is_fraud := isf, confidence := conf,
            risk_level := risk_level_of isf conf, detection_method := "HYBRID" }
        else
          { is_fraud := false, confidence := 1/2,
            risk_level := risk_level_of false (1/2), detection_method := "FALLBACK" }

/-- Composition of the reasoning step and the fusion step (`ml_predict →
llm_analyze → finalize` edges of the graph): an exception in the reasoning
call propagates out of `graph.invoke`. The `Nat` counts reasoning calls. -/
def detect_core (ml : MlResult) (svc : ServiceResponse) :
    Except String (Verdict × Nat) :=
  match llm_analysis_node ml svc with
  | Except.error e => Except.error e
  | Except.ok (llm, n) => Except.ok (generate_final_result ml llm, n)

/-- Fallback result built by the HTTP endpoint `detect_fraud` in
`Models/main.py` (lines 342–356) when `detector.detect_fraud` raises. -/
def query_validator_fallback : Verdict :=
  { is_fraud := false, confidence := 0, risk_level := "N/A",
    detection_method := "QUERY_VALIDATOR" }

/-- Transport-level wrapper of `Models/main.py` around the detector: a raising
detector is converted to the safe fallback result instead of propagating. -/
def detect_fraud_endpoint (ml : MlResult) (svc : ServiceResponse) : Verdict :=
  match detect_core ml svc with
  | Except.ok (v, _) => v
  | Except.error _ => query_validator_fallback

/-! ## Input gate (`FraudDetectionGraph.validate_input`, lines 253–344)

The gate asks the reasoning service to categorize the raw input. The
`self.llm.invoke` call at line 292 stands before the `try` at line 296, so a
raising call propagates out of the node; the `except` at line 331 catches
only failures while reading and parsing the response. -/

/-- Outcome of the gate's `self.llm.invoke` call: the call raises, the
response cannot be read or parsed as JSON, or it parses to an object whose
fields are read with `validation_result.get(...)` — the constructor carries
the fields after those defaults were applied. -/
inductive GateResponse where
  | failure (e : String)
  | parse_error
  | parsed (category : String) (is_fraud_request : Bool)
  deriving DecidableEq, Repr

/-- Decision fields of the short-circuit result dict built by
`validate_input` for non-fraud inputs. -/
structure GateResult where
  fraud_type : String
  is_fraud : Bool
  confidence : ℚ
  risk_level : String
  detection_method : String
  deriving DecidableEq, Repr

/-- Embedding of `validate_input`: `Except.error` is the invoke call raising;
`Except.ok none` means the request was recognized as a fraud query and the
pipeline continues; `Except.ok (some r)` is the short-circuit result (either
the non-fraud-request branch at lines 309–325 or the parse-failure fallback
at lines 331–344). -/
def validate_input (resp : GateResponse) : Except String (Option GateResult) :=
  match resp with
  | GateResponse.failure e => Except.error e
  | GateResponse.parse_error =>
      Except.ok (some
        { fraud_type := "conversation", is_fraud := false, confidence := 1,
          risk_level := "N/A", detection_method := "CONVERSATIONAL_AI" })
  | GateResponse.parsed category is_fraud_request =>
      if is_fraud_request then Except.ok none
      else
        Except.ok (some
          { fraud_type := category.toLower, is_fraud := false, confidence := 1,
            risk_level := "N/A", detection_method := "CONVERSATIONAL_AI" })

/-! ## Domain classifier (`FraudDetectionGraph.classify_fraud_type`, 346–382) -/

/-- Closed set of domain tags accepted from the reasoning service. -/
def valid_types : List String :=
  ["credit_card", "email_spam", "url_fraud", "upi_fraud"]

/-- Keyword lists of the fallback classification, in the priority order of
the `if`/`elif` chain at lines 370–377. -/
def credit_keywords : List (List Char) :=
  [String.toList "transaction", String.toList "amount", String.toList "v1",
   String.toList "v2", String.toList "credit card"]

/-- Keywords routing to the `email_spam` domain. -/
def message_keywords : List (List Char) :=
  [String.toList "message", String.toList "sms", String.toList "email",
   String.toList "text", String.toList "spam"]

/-- Keywords routing to the `url_fraud` domain. -/
def url_keywords : List (List Char) :=
  [String.toList "url", String.toList "link", String.toList "website",
   String.toList "http", String.toList "https"]

/-- Embedding of `classify_fraud_type`: normalize the reasoning service's
answer with `strip().lower()`, accept it when it lies in the closed set, and
otherwise run the keyword heuristic over the lowercased raw input, defaulting
to `upi_fraud`. -/
def classify_fraud_type (user_input llm_answer : List Char) : String :=
  let ft := String.mk ((stripChars llm_answer).map Char.toLower)
  if ft ∈ valid_types then ft
  else
    let ui := user_input.map Char.toLower
    if credit_keywords.any (fun w => containsSub w ui) then "credit_card"
    else if message_keywords.any (fun w => containsSub w ui) then "email_spam"
    else if url_keywords.any (fun w => containsSub w ui) then "url_fraud"
    else "upi_fraud"

/-- Modelled from the spec (§4.2, the claim of C9): the keyword-presence
fallback as the specification words it — transaction keywords first, then
message keywords, then link keywords, else the catch-all domain. Stated
separately so the source function can be proved to refine it. -/
def spec_domain_fallback (raw : List Char) : String :=
  let text := raw.map Char.toLower
  if credit_keywords.any (fun w => containsSub w text) then "credit_card"
  else if message_keywords.any (fun w => containsSub w text) then "email_spam"
  else if url_keywords.any (fun w => containsSub w text) then "url_fraud"
  else "upi_fraud"

/-! ## Advisor input validator (`fraud_advisor.py`, `InputValidator.validate`,
lines 77–108)

The degenerate-text checks of the specification's Input Gate live here: they
run before any reasoning-service call and map each failure to a fixed reason
tag. Ratio comparisons against 0.5, 0.4 and 0.7 are embedded as exact integer
inequalities (`2*alpha < total`, `5*count > 2*len`, `10*digits > 7*total`);
for texts of the admitted lengths these agree with the source's
floating-point comparisons. -/

/-- Embedding of `InputValidator.validate`: `(is_valid, reason)`. -/
def validate (q : List Char) : Bool × String :=
  if (stripChars q).length < 2 then (false, "too_short")
  else if q.length > 500 then (false, "too_long")
  else
    let alpha_count := q.countP Char.isAlpha
    let total_chars := (q.filter (fun c => c ≠ ' ')).length
    if total_chars > 0 && decide (2 * alpha_count < total_chars) then
      (false, "gibberish")
    else if q.length > 5 &&
        (q.map Char.toLower).any (fun c =>
          c.isAlpha && decide (5 * (q.map Char.toLower).count c > 2 * q.length)) then
      (false, "repeated_chars")
    else
      let digit_count := q.countP Char.isDigit
      if total_chars > 0 && decide (10 * digit_count > 7 * total_chars) then
        (false, "mostly_numbers")
      else (true, "valid")

/-- Modelled from the spec (§4.1 and the claim of C3): the degenerate-text
predicate as the specification words it — fewer than 2 non-whitespace
characters, longer than 500 characters, alphabetic ratio below 0.5 among
non-space characters, any single character repeated beyond 40% of total
length, or digit ratio above 0.7. Stated separately so the source validator
can be compared against it. -/
def spec_degenerate (q : List Char) : Bool :=
  let total := (q.filter (fun c => c ≠ ' ')).length
  decide ((q.filter (fun c => !c.isWhitespace)).length < 2) ||
  decide (q.length > 500) ||
  (decide (total > 0) && decide (2 * q.countP Char.isAlpha < total)) ||
  q.any (fun c => decide (5 * q.count c > 2 * q.length)) ||
  (decide (total > 0) && decide (10 * q.countP Char.isDigit > 7 * total))

/-- Canned clarification messages of
`ResponseTemplates.get_invalid_input_message` (lines 221–230), keyed by the
validator's reason tag, with the dictionary's default for unknown keys. -/
def get_invalid_input_message (reason : String) : String :=
  if reason == "too_short" then
    "Please provide a more detailed question so I can help you better."
  else if reason == "too_long" then
    "Your question is quite long. Could you please make it more concise?"
  else if reason == "gibberish" then
    "I couldn't understand your question. Could you please rephrase it?"
  else if reason == "repeated_chars" then
    "I couldn't understand your question. Could you please rephrase it?"
  else if reason == "mostly_numbers" then
    "I couldn't understand your question. Could you please provide a clear question about fraud prevention?"
  else "I couldn't understand your question. Could you please rephrase it?"

/-! ## Advisor output formatting (`FraudAdvisorGraph.format_output`, 302–339) -/

/-- Python `line.startswith(('-', '*', '•', '**'))` (the `'**'` member is
subsumed by `'*'`). -/
def starts_bullet (l : List Char) : Bool :=
  match l with
  | c :: _ => c == '-' || c == '*' || c == '•'
  | [] => false

/-- Python `text.split(sep)` for a one-character separator: splits at every
occurrence, keeping empty pieces (so it never returns an empty list). -/
def py_split_char (sep : Char) : List Char → List (List Char)
  | [] => [[]]
  | c :: rest =>
    if c = sep then [] :: py_split_char sep rest
    else
      match py_split_char sep rest with
      | [] => [[c]]
      | w :: ws => (c :: w) :: ws

/-- Python `sep.join(pieces)` for a one-character separator. -/
def join_char (sep : Char) : List (List Char) → List Char
  | [] => []
  | [w] => w
  | w :: x :: ws => w ++ sep :: join_char sep (x :: ws)

/-- Loop body of `format_output`: walks the lines with the accumulated
`formatted_lines`, skipping blank lines, inserting a blank entry before the
first bullet of a run and after its last one (peeking at the next raw line). -/
def format_lines (acc : List (List Char)) : List (List Char) → List (List Char)
  | [] => acc
  | line :: rest =>
    let stripped := stripChars line
    if stripped.isEmpty then format_lines acc rest
    else
      let is_bullet := starts_bullet stripped
      let prev_line := (acc.getLast?).getD []
      let prev_was_bullet := if prev_line.isEmpty then false
                             else starts_bullet (stripChars prev_line)
      let acc1 := if is_bullet && !prev_was_bullet && !acc.isEmpty
                  then acc ++ [[]] else acc
      let acc2 := acc1 ++ [stripped]
      let next_line := match rest with
                       | n :: _ => stripChars n
                       | [] => []
      let next_is_bullet := if next_line.isEmpty then false
                            else starts_bullet next_line
      let acc3 := if is_bullet && !next_is_bullet && !next_line.isEmpty
                  then acc2 ++ [[]] else acc2
      format_lines acc3 rest

/-- Python `formatted_text.replace(three newlines, two newlines)`:
left-to-right, non-overlapping. -/
def collapse_blank_runs : List Char → List Char
  | '\n' :: '\n' :: '\n' :: rest => '\n' :: '\n' :: collapse_blank_runs rest
  | c :: rest => c :: collapse_blank_runs rest
  | [] => []

/-- Embedding of the body of `format_output` applied to the generated
response text. -/
def format_text (text : List Char) : List Char :=
  collapse_blank_runs (join_char '\n' (format_lines [] (py_split_char '\n' text)))

/-! ## Advisor workflow (`FraudAdvisorGraph`, lines 237–394)

The conditional edge after `validate` routes invalid states straight to
`format`, which returns them unchanged, so neither `categorize_query` nor
`generate_response` — the only nodes of this graph that call
`self.llm.invoke` — runs: the run makes zero reasoning-service calls. On the
valid path each of the two nodes makes exactly one call; `category_answer`
carries the parsed categorization (with the `.get` defaults applied) or
`none` for the `except` fallback, and `generated_text` the generation
response. -/

/-- Observable outcome of one advisor run: the fields of `get_advice`'s
return dict plus the count of reasoning-service calls made. -/
structure AdvisorOutcome where
  query_type : String
  topic : String
  formatted_response : List Char
  llm_calls : Nat
  deriving DecidableEq, Repr

/-- Embedding of the advisor graph (`validate` → conditional →
`categorize`/`generate`/`format` or directly `format`). -/
def run_advisor_graph (query : List Char)
    (category_answer : Option (String × String)) (generated_text : List Char) :
    AdvisorOutcome :=
  let v := validate query
  if v.1 then
    let parsed := match category_answer with
      | some (qt, tp) => (qt, tp)
      | none => ("simple", "general")
    { query_type := parsed.1, topic := parsed.2,
      formatted_response := format_text generated_text, llm_calls := 2 }
  else
    { query_type := "invalid", topic := "",
      formatted_response := (get_invalid_input_message v.2).toList,
      llm_calls := 0 }

/-! ## Streaming presenter (`detect_fraud_stream`, lines 868–913, and
`get_advice_stream`, lines 396–437)

Both streaming entry points run the full workflow, split the rendered
message on single spaces, and emit groups of three words per content chunk —
`' '.join(words[i:i+3])`, with a trailing space appended whenever more words
follow — before one distinguished completion event carrying the full result.
The two functions share this algorithm verbatim; it is embedded once. -/

/-- One server-sent event of a streaming run: a content chunk or the final
completion marker carrying the full result. -/
inductive StreamEvent (α : Type) where
  | content (text : List Char)
  | complete (result : α)
  deriving DecidableEq, Repr

/-- Loop of the presenter over the word list: group of three words joined by
single spaces, plus a trailing space when words remain
(`if i + chunk_size < len(words)`). -/
def chunk_words : List (List Char) → List (List Char)
  | [] => []
  | w :: rest =>
    (join_char ' ' (w :: rest.take 2) ++
        if rest.drop 2 = [] then [] else [' ']) ::
      chunk_words (rest.drop 2)
  termination_by ws => ws.length
  decreasing_by simp [List.length_drop]; omega

/-- Embedding of a streaming run over an already-rendered message: the
content chunks in emission order followed by the completion event. -/
def stream_events {α : Type} (message : List Char) (result : α) :
    List (StreamEvent α) :=
  (chunk_words (py_split_char ' ' message)).map StreamEvent.content ++
    [StreamEvent.complete result]

/-- Texts of the content events of a stream, in order. -/
def content_texts {α : Type} (evs : List (StreamEvent α)) : List (List Char) :=
  evs.filterMap (fun e =>
    match e with
    | StreamEvent.content t => some t
    | StreamEvent.complete _ => none)

/-- Number of completion events of a stream. -/
def complete_count {α : Type} (evs : List (StreamEvent α)) : Nat :=
  evs.countP (fun e =>
    match e with
    | StreamEvent.complete _ => true
    | StreamEvent.content _ => false)

/-! ## Theorems -/

/-- C1: when the model opinion is available and the probability of the
predicted class — which equals `max(probabilityFraud, probabilityLegit)` for
an argmax label — is at least 0.70, the pipeline yields `method = ML_MODEL`,
`isFraud = (predictedLabel == 1)` and `confidence` equal to that probability,
and the reasoning adapter is not invoked at all (zero reasoning-service
calls, whatever the service would have answered). -/
theorem model_high_confidence_trusts_model (label : Int) (pF pL : ℚ)
    (svc : ServiceResponse)
    (hmax : (run_ml_model true (Except.ok (label, pF, pL))).confidence = max pF pL)
    (hconf : 7/10 ≤ max pF pL) :
    detect_core (run_ml_model true (Except.ok (label, pF, pL))) svc =
      Except.ok
        ({ is_fraud := label == 1, confidence := max pF pL,
           risk_level := risk_level_of (label == 1) (max pF pL),
           detection_method := "ML_MODEL" }, 0) := by
  have hmax' : (if label = 1 then pF else pL) = max pF pL := by
    simpa [run_ml_model, predict_success, beq_iff_eq] using hmax
  have hsome : (some label == some (1:Int)) = (label == 1) := rfl
  simp [detect_core, llm_analysis_node, use_llm, run_ml_model, predict_success,
    generate_final_result, llm_not_used, hmax', hsome, not_lt.mpr hconf, hconf,
    beq_iff_eq]

/-- Witness for C1 at a concrete high-confidence fraud prediction. -/
theorem model_high_confidence_trusts_model_witness :
    (7:ℚ)/10 ≤ max (95/100 : ℚ) (5/100) ∧
    detect_core (run_ml_model true (Except.ok (1, 95/100, 5/100)))
        (ServiceResponse.failure "service down") =
      Except.ok
        ({ is_fraud := (1:Int) == 1, confidence := max (95/100 : ℚ) (5/100),
           risk_level := risk_level_of ((1:Int) == 1) (max (95/100 : ℚ) (5/100)),
           detection_method := "ML_MODEL" }, 0) :=
  ⟨by norm_num,
   model_high_confidence_trusts_model 1 (95/100) (5/100)
     (ServiceResponse.failure "service down")
     (by norm_num [run_ml_model, predict_success]) (by norm_num)⟩

/-- C2 counterexample: a low-confidence available model (confidence 0.5,
label 0) fused with a present, well-formed reasoning opinion
(`isFraud = true, confidence = 0.3`) yields `method = LLM_REASONING` with the
reasoning confidence — not the hybrid rule the claim states (which would give
`method = HYBRID` and `confidence = max(0.5, 0.3) = 0.5`). -/
theorem hybrid_branch_shadowed_counterexample :
    detect_core (run_ml_model true (Except.ok (0, 3/10, 1/2)))
        (ServiceResponse.parsed { is_fraud := some true, confidence := some (3/10) }) =
      Except.ok
        ({ is_fraud := true, confidence := 3/10, risk_level := "LOW",
           detection_method := "LLM_REASONING" }, 1) ∧
    "LLM_REASONING" ≠ "HYBRID" ∧ (3:ℚ)/10 ≠ 1/2 :=
  ⟨by norm_num [detect_core, llm_analysis_node, use_llm, run_ml_model,
      predict_success, generate_final_result, risk_level_of],
   by decide, by norm_num⟩

/-- C2 amended: the hybrid branch fires only when the model is available but
low-confidence and the reasoning analysis lacks an `is_fraud` verdict; the
reasoning vote then defaults to the model's own vote, so
`isFraud = modelFraud`, `confidence = max(modelConf, reasoningConf)` when the
verdict is fraud and `min` otherwise (reasoning confidence defaulting to
0.5), and `method = HYBRID`; a present `is_fraud` verdict takes the
`LLM_REASONING` branch instead. -/
theorem hybrid_branch_rule (ml : MlResult) (llm : LlmAnalysis)
    (hav : ml.model_available = true) (hconf : ml.confidence < 7/10)
    (hno : llm.is_fraud = none) :
    generate_final_result ml llm =
      { is_fraud := ml.prediction == some 1,
        confidence :=
          if ml.prediction == some 1 then
            max ml.confidence (llm.confidence.getD (1/2))
          else min ml.confidence (llm.confidence.getD (1/2)),
        risk_level := risk_level_of (ml.prediction == some 1)
          (if ml.prediction == some 1 then
            max ml.confidence (llm.confidence.getD (1/2))
          else min ml.confidence (llm.confidence.getD (1/2))),
        detection_method := "HYBRID" } ∧
    (ml.prediction = some 1 → (generate_final_result ml llm).is_fraud = true) := by
  constructor
  · simp [generate_final_result, hav, hno, not_le.mpr hconf]
  · intro hp
    simp [generate_final_result, hav, hno, not_le.mpr hconf, hp]

/-- Witness for C2's amended hybrid rule at a concrete low-confidence fraud
prediction with a verdict-less reasoning record. -/
theorem hybrid_branch_rule_witness :
    generate_final_result
        { model_available := true, prediction := some 1, confidence := 13/20,
          method := "ML_MODEL" }
        { is_fraud := none, confidence := some (9/10) } =
      { is_fraud := (some (1:Int) == some 1),
        confidence :=
          if some (1:Int) == some 1 then max (13/20 : ℚ) ((some (9/10 : ℚ)).getD (1/2))
          else min (13/20 : ℚ) ((some (9/10 : ℚ)).getD (1/2)),
        risk_level := risk_level_of (some (1:Int) == some 1)
          (if some (1:Int) == some 1 then max (13/20 : ℚ) ((some (9/10 : ℚ)).getD (1/2))
           else min (13/20 : ℚ) ((some (9/10 : ℚ)).getD (1/2))),
        detection_method := "HYBRID" } :=
  (hybrid_branch_rule
    { model_available := true, prediction := some 1, confidence := 13/20,
      method := "ML_MODEL" }
    { is_fraud := none, confidence := some (9/10) }
    rfl (by norm_num) rfl).1

/-- C4 counterexample: with no classifier available and the reasoning service
returning unparseable prose containing the word "prize" (and none of the
scanned keywords `fraud`, `fraudulent`, `suspicious`, `malicious`, `spam`),
the verdict is `isFraud = false, confidence = 0.6, method = LLM_REASONING` —
not the claimed `isFraud = true, confidence = 0.8`. -/
theorem prize_keyword_counterexample :
    detect_core (run_ml_model false (Except.error "no classifier"))
        (ServiceResponse.unparseable
          (String.toList "Congratulations, you have won a prize!")) =
      Except.ok
        ({ is_fraud := false, confidence := 6/10, risk_level := "LOW",
           detection_method := "LLM_REASONING" }, 1) := by
  have hk : keyword_hit (String.toList "Congratulations, you have won a prize!") =
      false := by decide
  simp [detect_core, llm_analysis_node, use_llm, run_ml_model, keyword_fallback,
    generate_final_result, risk_level_of]
  simp_all

/-- C4 amended: with no classifier available and an unparseable reasoning
response, the keyword heuristic over the lowercased prose decides the
verdict: `isFraud` is true exactly when one of `fraud`, `fraudulent`,
`suspicious`, `malicious`, `spam` occurs, confidence is 0.8 when a keyword is
found and 0.6 otherwise, and `method = LLM_REASONING` ("prize" is not among
the scanned keywords). -/
theorem reasoning_keyword_degradation (o : Except String (Int × ℚ × ℚ))
    (content : List Char) :
    detect_core (run_ml_model false o) (ServiceResponse.unparseable content) =
      Except.ok
        ({ is_fraud := keyword_hit content,
           confidence := if keyword_hit content then 8/10 else 6/10,
           risk_level := risk_level_of (keyword_hit content)
             (if keyword_hit content then 8/10 else 6/10),
           detection_method := "LLM_REASONING" }, 1) := by
  simp [detect_core, llm_analysis_node, use_llm, run_ml_model,
    keyword_fallback, generate_final_result]

/-- C5: the risk tier is a fixed function of `(isFraud, confidence)`:
for a fraud verdict, `≥ 0.9` is CRITICAL, `≥ 0.75` HIGH, `≥ 0.6` MEDIUM,
lower is LOW, with boundaries inclusive on the high side (0.9 is CRITICAL,
0.89999 is HIGH); a non-fraud verdict is always LOW. The same mapping is
applied by the fusion stage to every branch's fused pair, and the QR
detector's copy of the mapping agrees with it. -/
theorem risk_tier_mapping :
    (∀ c : ℚ, 9/10 ≤ c → risk_level_of true c = "CRITICAL") ∧
    (∀ c : ℚ, 3/4 ≤ c → c < 9/10 → risk_level_of true c = "HIGH") ∧
    (∀ c : ℚ, 3/5 ≤ c → c < 3/4 → risk_level_of true c = "MEDIUM") ∧
    (∀ c : ℚ, c < 3/5 → risk_level_of true c = "LOW") ∧
    (∀ c : ℚ, risk_level_of false c = "LOW") ∧
    risk_level_of true (9/10) = "CRITICAL" ∧
    risk_level_of true (89999/100000) = "HIGH" ∧
    (∀ (f : Bool) (c : ℚ), qr_risk_level f c = risk_level_of f c) ∧
    (∀ (ml : MlResult) (llm : LlmAnalysis),
      (generate_final_result ml llm).risk_level =
        risk_level_of (generate_final_result ml llm).is_fraud
          (generate_final_result ml llm).confidence) := by
  refine ⟨fun c h => ?_, fun c h1 h2 => ?_, fun c h1 h2 => ?_, fun c h => ?_,
    fun c => ?_, ?_, ?_, fun f c => ?_, fun ml llm => ?_⟩
  · simp [risk_level_of, h]
  · simp [risk_level_of, h1, not_le.mpr h2]
  · have h3 : ¬ (9/10 : ℚ) ≤ c := not_le.mpr (h2.trans_le (by norm_num))
    simp [risk_level_of, h1, not_le.mpr h2, h3]
  · have h2 : ¬ (3/4 : ℚ) ≤ c := not_le.mpr (h.trans_le (by norm_num))
    have h3 : ¬ (9/10 : ℚ) ≤ c := not_le.mpr (h.trans_le (by norm_num))
    simp [risk_level_of, not_le.mpr h, h2, h3]
  · simp [risk_level_of]
  · norm_num [risk_level_of]
  · norm_num [risk_level_of]
  · cases f <;> simp [qr_risk_level, risk_level_of]
  · unfold generate_final_result
    split
    · rfl
    · split
      · rfl
      · split
        · rfl
        · rfl

/-- Witness for C5 at concrete confidences. -/
theorem risk_tier_mapping_witness :
    risk_level_of true (95/100) = "CRITICAL" ∧
    risk_level_of true (8/10) = "HIGH" ∧
    risk_level_of true (65/100) = "MEDIUM" ∧
    risk_level_of true (1/2) = "LOW" ∧
    risk_level_of false (99/100) = "LOW" :=
  ⟨risk_tier_mapping.1 (95/100) (by norm_num),
   risk_tier_mapping.2.1 (8/10) (by norm_num) (by norm_num),
   risk_tier_mapping.2.2.1 (65/100) (by norm_num) (by norm_num),
   risk_tier_mapping.2.2.2.1 (1/2) (by norm_num),
   risk_tier_mapping.2.2.2.2.1 (99/100)⟩

/-- C7: an internal failure during inference is absorbed by the classifier
adapter — the step returns `model_available = false` with the
`ERROR_FALLBACK_TO_LLM` tag instead of raising — and the downstream stages
treat that result exactly like the no-classifier-registered case: the same
reasoning-invocation decision, the same fused verdict, and the same overall
pipeline outcome for every reasoning-service behavior. -/
theorem classifier_failure_is_no_opinion (e : String)
    (o : Except String (Int × ℚ × ℚ)) (llm : LlmAnalysis) (svc : ServiceResponse) :
    (run_ml_model true (Except.error e)).model_available = false ∧
    (run_ml_model true (Except.error e)).method = "ERROR_FALLBACK_TO_LLM" ∧
    use_llm (run_ml_model true (Except.error e)) =
      use_llm (run_ml_model false o) ∧
    generate_final_result (run_ml_model true (Except.error e)) llm =
      generate_final_result (run_ml_model false o) llm ∧
    detect_core (run_ml_model true (Except.error e)) svc =
      detect_core (run_ml_model false o) svc := by
  refine ⟨rfl, rfl, by simp [run_ml_model, use_llm], ?_, ?_⟩
  · cases hllm : llm.is_fraud <;>
      simp [run_ml_model, generate_final_result, hllm]
  · cases svc <;>
      cases hllm : llm.is_fraud <;>
        simp [run_ml_model, detect_core, llm_analysis_node, use_llm,
          generate_final_result, keyword_fallback, hllm]

/-- C8 counterexample: when the reasoning-service call itself fails, the
reasoning adapter does not return a zero-confidence opinion — the exception
escapes the node (the `try` of `llm_analysis` wraps only the response
parsing, not the `invoke` call), so no `ReasoningOpinion` is produced. -/
theorem reasoning_call_failure_raises :
    llm_analysis_node (run_ml_model false (Except.error "no classifier"))
        (ServiceResponse.failure "service timeout") =
      Except.error "service timeout" := rfl

/-- C8 amended: the reasoning adapter absorbs malformed responses — for any
received response text (unparseable or parsed) it returns an analysis and
never raises — but an outright service-call failure propagates out of the
adapter as the raised exception; such a request yields a verdict only
because the HTTP layer of `main.py` catches the exception and substitutes
its safe fallback result (`is_fraud = false, confidence = 0`). -/
theorem reasoning_adapter_failure_paths (ml : MlResult) (content : List Char)
    (j : LlmAnalysis) (e : String) (h : use_llm ml = true) :
    (llm_analysis_node ml (ServiceResponse.unparseable content)).toOption.isSome = true ∧
    (llm_analysis_node ml (ServiceResponse.parsed j)).toOption.isSome = true ∧
    llm_analysis_node ml (ServiceResponse.failure e) = Except.error e ∧
    detect_fraud_endpoint ml (ServiceResponse.failure e) = query_validator_fallback ∧
    (detect_fraud_endpoint ml (ServiceResponse.failure e)).is_fraud = false ∧
    (detect_fraud_endpoint ml (ServiceResponse.failure e)).confidence = 0 := by
  refine ⟨?_, ?_, ?_, ?_, ?_, ?_⟩ <;>
    simp [llm_analysis_node, detect_fraud_endpoint, detect_core, h,
      query_validator_fallback, Except.toOption]

/-- Witness for C8's amended failure paths at a concrete unavailable-model
state. -/
theorem reasoning_adapter_failure_paths_witness :
    (llm_analysis_node (run_ml_model false (Except.error "x"))
        (ServiceResponse.unparseable (String.toList "plain prose"))).toOption.isSome
      = true ∧
    (llm_analysis_node (run_ml_model false (Except.error "x"))
        (ServiceResponse.parsed { is_fraud := some false, confidence := some (1/2) })).toOption.isSome
      = true ∧
    llm_analysis_node (run_ml_model false (Except.error "x"))
        (ServiceResponse.failure "timeout") = Except.error "timeout" ∧
    detect_fraud_endpoint (run_ml_model false (Except.error "x"))
        (ServiceResponse.failure "timeout") = query_validator_fallback ∧
    (detect_fraud_endpoint (run_ml_model false (Except.error "x"))
        (ServiceResponse.failure "timeout")).is_fraud = false ∧
    (detect_fraud_endpoint (run_ml_model false (Except.error "x"))
        (ServiceResponse.failure "timeout")).confidence = 0 :=
  reasoning_adapter_failure_paths (run_ml_model false (Except.error "x"))
    (String.toList "plain prose")
    { is_fraud := some false, confidence := some (1/2) } "timeout" rfl

/-- C10 counterexample: when the gate's own reasoning call fails, the
short-circuit result is not produced — the exception escapes `validate_input`
(the `invoke` at line 292 stands before the `try` at line 296). -/
theorem gate_call_failure_raises :
    validate_input (GateResponse.failure "connection refused") =
      Except.error "connection refused" := rfl

/-- C10 amended: whenever the gate receives a reasoning response and either
classifies the input as a non-fraud request or fails to parse the response,
the short-circuit result always has `is_fraud = false`, `confidence = 1.0`,
`detection_method = CONVERSATIONAL_AI` and `risk_level = "N/A"` — a value
outside the documented LOW/MEDIUM/HIGH/CRITICAL enum; when the reasoning
call itself fails, the gate raises instead of short-circuiting. -/
theorem gate_short_circuit_fields (resp : GateResponse) (r : GateResult)
    (h : validate_input resp = Except.ok (some r)) :
    r.is_fraud = false ∧ r.confidence = 1 ∧
    r.detection_method = "CONVERSATIONAL_AI" ∧ r.risk_level = "N/A" ∧
    r.risk_level ∉ (["LOW", "MEDIUM", "HIGH", "CRITICAL"] : List String) := by
  cases resp with
  | failure e => simp [validate_input] at h
  | parse_error =>
      simp only [validate_input, Except.ok.injEq, Option.some.injEq] at h
      subst h
      refine ⟨rfl, rfl, rfl, rfl, by decide⟩
  | parsed category is_fraud_request =>
      cases is_fraud_request with
      | true => simp [validate_input] at h
      | false =>
          simp only [validate_input, Bool.false_eq_true, if_false,
            Except.ok.injEq, Option.some.injEq] at h
          subst h
          refine ⟨rfl, rfl, rfl, rfl, by simp⟩

/-- Witness for C10's amended short-circuit at the parse-failure fallback. -/
theorem gate_short_circuit_fields_witness :
    ({ fraud_type := "conversation", is_fraud := false, confidence := 1,
       risk_level := "N/A",
       detection_method := "CONVERSATIONAL_AI" } : GateResult).is_fraud = false ∧
    ({ fraud_type := "conversation", is_fraud := false, confidence := 1,
       risk_level := "N/A",
       detection_method := "CONVERSATIONAL_AI" } : GateResult).confidence = 1 ∧
    ({ fraud_type := "conversation", is_fraud := false, confidence := 1,
       risk_level := "N/A",
       detection_method := "CONVERSATIONAL_AI" } : GateResult).detection_method =
      "CONVERSATIONAL_AI" ∧
    ({ fraud_type := "conversation", is_fraud := false, confidence := 1,
       risk_level := "N/A",
       detection_method := "CONVERSATIONAL_AI" } : GateResult).risk_level = "N/A" ∧
    ({ fraud_type := "conversation", is_fraud := false, confidence := 1,
       risk_level := "N/A",
       detection_method := "CONVERSATIONAL_AI" } : GateResult).risk_level ∉
      (["LOW", "MEDIUM", "HIGH", "CRITICAL"] : List String) :=
  gate_short_circuit_fields GateResponse.parse_error
    { fraud_type := "conversation", is_fraud := false, confidence := 1,
      risk_level := "N/A", detection_method := "CONVERSATIONAL_AI" } rfl

/-- C9: when the reasoning service's domain answer (after `strip().lower()`)
lies outside the closed set {credit_card, email_spam, url_fraud, upi_fraud},
the classifier falls back to the keyword-presence heuristic over the
lowercased raw text exactly as the specification words it (transaction
keywords first, then message keywords, then link keywords), and defaults to
`upi_fraud` when no keyword matches. -/
theorem domain_fallback_refines_spec (user_input llm_answer : List Char)
    (h : String.mk ((stripChars llm_answer).map Char.toLower) ∉ valid_types) :
    classify_fraud_type user_input llm_answer = spec_domain_fallback user_input ∧
    ((credit_keywords ++ message_keywords ++ url_keywords).all
        (fun w => !containsSub w (user_input.map Char.toLower)) = true →
      classify_fraud_type user_input llm_answer = "upi_fraud") := by
  constructor
  · simp only [classify_fraud_type, spec_domain_fallback, if_neg h]
  · intro hall
    simp only [List.all_append, Bool.and_eq_true, List.all_eq_true,
      Bool.not_eq_true'] at hall
    obtain ⟨⟨hc, hm⟩, hu⟩ := hall
    have f1 : credit_keywords.any
        (fun w => containsSub w (user_input.map Char.toLower)) = false :=
      List.any_eq_false.mpr (by intro x hx; simp [hc x hx])
    have f2 : message_keywords.any
        (fun w => containsSub w (user_input.map Char.toLower)) = false :=
      List.any_eq_false.mpr (by intro x hx; simp [hm x hx])
    have f3 : url_keywords.any
        (fun w => containsSub w (user_input.map Char.toLower)) = false :=
      List.any_eq_false.mpr (by intro x hx; simp [hu x hx])
    simp [classify_fraud_type, if_neg h, f1, f2, f3]

/-- Witness for C9 at a concrete out-of-set answer with no keyword match. -/
theorem domain_fallback_refines_spec_witness :
    classify_fraud_type (String.toList "is this okay") (String.toList "unknown") =
      spec_domain_fallback (String.toList "is this okay") ∧
    ((credit_keywords ++ message_keywords ++ url_keywords).all
        (fun w => !containsSub w ((String.toList "is this okay").map Char.toLower)) = true →
      classify_fraud_type (String.toList "is this okay") (String.toList "unknown") =
        "upi_fraud") :=
  domain_fallback_refines_spec (String.toList "is this okay")
    (String.toList "unknown") (by decide)

/-- C3 counterexample: the input "aaaa" is degenerate in the claim's sense
(a single character repeated beyond 40% of the total length), yet the
validator accepts it — the source's repeated-character check only applies to
inputs longer than 5 characters. -/
theorem degenerate_gate_counterexample :
    spec_degenerate (String.toList "aaaa") = true ∧
    validate (String.toList "aaaa") = (true, "valid") := by decide

/-- C3 amended: for every text the validator rejects — fewer than 2
non-whitespace characters, longer than 500 characters, alphabetic ratio
below 0.5 among non-space characters, any single alphabetic character
repeated beyond 40% of the total length when that length exceeds 5, or digit
ratio above 0.7 — the advisor run short-circuits with the canned
clarification message for the reason tag and makes zero reasoning-service
calls; in particular "aaaaaaaaaa" is rejected with reason `repeated_chars`
without any network call. -/
theorem degenerate_inputs_rejected_without_network
    (q : List Char) (ans : Option (String × String)) (gen : List Char)
    (h : (validate q).1 = false) :
    run_advisor_graph q ans gen =
      { query_type := "invalid", topic := "",
        formatted_response := (get_invalid_input_message (validate q).2).toList,
        llm_calls := 0 } ∧
    validate (String.toList "aaaaaaaaaa") = (false, "repeated_chars") := by
  constructor
  · simp only [run_advisor_graph, h, Bool.false_eq_true, if_false]
  · decide

/-- Witness for C3's amended rejection property at the repeated-character
input. -/
theorem degenerate_inputs_rejected_without_network_witness :
    run_advisor_graph (String.toList "aaaaaaaaaa") none [] =
      { query_type := "invalid", topic := "",
        formatted_response :=
          (get_invalid_input_message
            (validate (String.toList "aaaaaaaaaa")).2).toList,
        llm_calls := 0 } ∧
    validate (String.toList "aaaaaaaaaa") = (false, "repeated_chars") :=
  degenerate_inputs_rejected_without_network (String.toList "aaaaaaaaaa")
    none [] (by decide)

/-! ### Helper lemmas for the streaming presenter -/

/-- Splitting never yields the empty list of pieces. -/
theorem py_split_char_ne_nil (sep : Char) (l : List Char) :
    py_split_char sep l ≠ [] := by
  induction l with
  | nil => simp [py_split_char]
  | cons c rest ih =>
      simp only [py_split_char]
      split
      · simp
      · split <;> simp

/-- Unfolding of `join_char` on a cons with a nonempty tail. -/
theorem join_char_cons (sep : Char) (w : List Char) (ws : List (List Char))
    (h : ws ≠ []) :
    join_char sep (w :: ws) = w ++ sep :: join_char sep ws := by
  cases ws with
  | nil => exact absurd rfl h
  | cons x t => rfl

/-- A head character distributes out of the first piece of a join. -/
theorem join_char_cons_head (sep c : Char) (w : List Char)
    (ws : List (List Char)) :
    join_char sep ((c :: w) :: ws) = c :: join_char sep (w :: ws) := by
  cases ws with
  | nil => rfl
  | cons x t => rfl

/-- Joining on the separator inverts splitting on it: the split/join
round-trip law underlying the streaming reconstruction. -/
theorem join_char_py_split_char (sep : Char) (l : List Char) :
    join_char sep (py_split_char sep l) = l := by
  induction l with
  | nil => rfl
  | cons c rest ih =>
      by_cases hc : c = sep
      · subst hc
        rw [show py_split_char c (c :: rest) = [] :: py_split_char c rest by
              simp [py_split_char],
            join_char_cons _ _ _ (py_split_char_ne_nil _ _)]
        simpa using ih
      · obtain ⟨w, ws, hws⟩ :=
          List.exists_cons_of_ne_nil (py_split_char_ne_nil sep rest)
        rw [show py_split_char sep (c :: rest) = (c :: w) :: ws by
              simp [py_split_char, hc, hws],
            join_char_cons_head, ← hws, ih]

/-- The presenter loop emits one chunk per group of three words:
`ceil(n/3)` chunks in total. -/
theorem chunk_words_length (ws : List (List Char)) :
    (chunk_words ws).length = (ws.length + 2) / 3 := by
  induction ws using chunk_words.induct with
  | case1 => simp [chunk_words]
  | case2 w rest ih =>
      rw [chunk_words]
      simp only [List.length_cons, ih, List.length_drop]
      omega

/-- One step of the grouping: a word list splits into its first group of
three, the conditional separator, and the remaining words. -/
theorem join_char_take_drop (w : List Char) (rest : List (List Char)) :
    join_char ' ' (w :: rest) =
      (join_char ' ' (w :: rest.take 2) ++
          if rest.drop 2 = [] then [] else [' ']) ++
        join_char ' ' (rest.drop 2) := by
  match rest with
  | [] => simp [join_char]
  | [x] => simp [join_char]
  | x :: y :: more =>
      cases more with
      | nil => simp [join_char]
      | cons z m =>
          simp [join_char, List.append_assoc, List.cons_append]

/-- Concatenating the emitted chunks rebuilds the space-join of the words. -/
theorem chunk_words_join (ws : List (List Char)) :
    (chunk_words ws).flatten = join_char ' ' ws := by
  induction ws using chunk_words.induct with
  | case1 => simp [chunk_words, join_char]
  | case2 w rest ih =>
      rw [chunk_words]
      simp only [List.flatten_cons, ih]
      exact (join_char_take_drop w rest).symm

/-- Every element of `chunk_words` maps to a content event, and the
completion marker is appended once: the shape facts of a stream. -/
theorem content_texts_map_content {α : Type} (l : List (List Char)) (r : α) :
    content_texts (l.map StreamEvent.content ++ [StreamEvent.complete r]) = l ∧
    complete_count (l.map StreamEvent.content ++ [StreamEvent.complete r]) = 1 := by
  induction l with
  | nil => simp [content_texts, complete_count]
  | cons w t ih => simpa [content_texts, complete_count] using ih

/-- C6: a streaming run over a rendered message with `n = length of the
split-on-space word list` emits exactly `ceil(n/3)` content chunks of three
words each, followed by exactly one completion marker carrying the full
result, and concatenating the content chunks in emission order reconstructs
the message exactly. -/
theorem stream_three_word_chunks {α : Type} (message : List Char) (result : α) :
    (content_texts (stream_events message result)).length =
      ((py_split_char ' ' message).length + 2) / 3 ∧
    (content_texts (stream_events message result)).flatten = message ∧
    complete_count (stream_events message result) = 1 ∧
    (stream_events message result).getLast? =
      some (StreamEvent.complete result) ∧
    (stream_events message result).length =
      (content_texts (stream_events message result)).length + 1 := by
  obtain ⟨hct, hcc⟩ :=
    content_texts_map_content (chunk_words (py_split_char ' ' message)) result
  refine ⟨?_, ?_, ?_, ?_, ?_⟩
  · rw [stream_events, hct, chunk_words_length]
  · rw [stream_events, hct, chunk_words_join, join_char_py_split_char]
  · simp only [stream_events] at hcc ⊢
    exact hcc
  · simp [stream_events]
  · simp [stream_events, hct]

end Sotrian
